import Mathlib

/-!
Verification development for the browser-agent-extension request router:
the daemon (`mcp-server/src/daemon.ts`), the MCP helper
(`mcp-server/src/index.ts`), the extension side panel
(`extension/src/sidepanel/sidepanel.ts`) and the session-binding module
(`extension/src/sidepanel/session-binding.ts`).

Each process is single-threaded and event-driven, so it is embedded as a
pure step function on an explicit state, reacting to parsed input events
and emitting a list of output messages.  JavaScript `Map`s are embedded
as insertion-ordered association lists (`Map.set` replaces in place or
appends, `Map.delete` removes the unique entry, iteration follows
insertion order).  `Date.now()` values never influence control flow in
the embedded code, so timestamps are modelled by a constant clock field.
-/

namespace BrowserAgent

/-- JavaScript `String.prototype.startsWith` (and the anchored-prefix
part of a regex test), as a computable character-list prefix check. -/
def strStartsWith (s pre : String) : Bool :=
  pre.toList.isPrefixOf s.toList

/-- `Map.get`: first (unique) entry for a key, if any. -/
def mapGet [DecidableEq κ] : List (κ × α) → κ → Option α
  | [], _ => none
  | (k', v) :: rest, k => if k' = k then some v else mapGet rest k

/-- `Map.set`: replace the entry in place when the key is present,
append otherwise (JavaScript `Map` insertion order). -/
def mapSet [DecidableEq κ] : List (κ × α) → κ → α → List (κ × α)
  | [], k, v => [(k, v)]
  | (k', v') :: rest, k, v =>
    if k' = k then (k, v) :: rest else (k', v') :: mapSet rest k v

/-- `Map.delete`: remove the (unique) entry for a key. -/
def mapDelete [DecidableEq κ] : List (κ × α) → κ → List (κ × α)
  | [], _ => []
  | (k', v) :: rest, k => if k' = k then rest else (k', v) :: mapDelete rest k

namespace Daemon

/-- `interface Session` of daemon.ts (the `socket` reference is modelled
by an abstract socket identifier). -/
structure Session where
  id : String
  socketId : Nat
  createdAt : Nat
  lastActiveAt : Nat
deriving Repr, DecidableEq

/-- `interface PendingRequest` of daemon.ts.  The resolve/reject
continuations captured by `handleRequest` reply on the socket the REQUEST
arrived on, so the entry records that socket (`replyTo`); the timeout
closure also captures the `action` for its error message. -/
structure PendingRequest where
  sessionId : String
  replyTo : Nat
  action : String
deriving Repr, DecidableEq

/-- The `payload` of a RESPONSE (`ExtensionMessage.payload`). -/
structure Payload where
  success : Bool
  data : Option String
  error : Option String
deriving Repr, DecidableEq

/-- Messages written by `sendToClient` (daemon → helper). -/
inductive ClientMsg where
  | registerOk (id : String) (sessionId : String)
  | registerError (id : String) (error : String)
  | response (id : String) (sessionId : Option String) (payload : Payload)
  | pong (id : String)
  | statusOk (id : String) (extensionConnected : Bool) (activeSessions : Nat)
deriving Repr, DecidableEq

/-- Frames sent on the extension WebSocket (daemon → extension). -/
inductive ExtMsg where
  | sessionStart (sessionId : String)
  | sessionEnd (sessionId : String)
  | request (id : String) (sessionId : String) (action : String)
deriving Repr, DecidableEq

/-- Observable daemon outputs.  `endSocket` models `socket.end()` in the
session-limit branch of `handleRegister`. -/
inductive Out where
  | client (socketId : Nat) (msg : ClientMsg)
  | extension (msg : ExtMsg)
  | endSocket (socketId : Nat)
deriving Repr, DecidableEq

/-- Daemon state: the `sessions` and `pendingRequests` maps, and the
shared extension WebSocket.  The `extensionConnections` map is never
populated anywhere in daemon.ts (no `.set` call exists), so it is
constantly empty and omitted; `isExtensionConnected` therefore reduces
to the liveness of `sharedExtensionWs`, modelled by `extensionUp`.
`rand` counts the `crypto.randomBytes` draws made so far (see
`generateSessionId`); `clock` is the constant `Date.now()` model. -/
structure DaemonState where
  sessions : List (String × Session)
  pending : List (String × PendingRequest)
  extensionUp : Bool
  rand : Nat
  clock : Nat
deriving Repr, DecidableEq

def MAX_SESSIONS : Nat := 100

def REQUEST_TIMEOUT : Nat := 30000

/-- `generateSessionId`: `'sess_' + crypto.randomBytes(16).toString('hex')`.
The randomness is modelled by a fresh-name supply indexed by the number
of draws made so far: the source relies on the 16-byte draws being
collision-free (the spec calls the ids "random, unguessable,
collision-free within process lifetime"), and the supply below renders
distinct indices as provably distinct strings. -/
def generateSessionId (r : Nat) : String :=
  "sess_" ++ String.mk (List.replicate r 'x')

/-- `isExtensionConnected` (daemon.ts): `extensionConnections` is always
empty, so only the shared WebSocket matters. -/
def isExtensionConnected (st : DaemonState) : Bool :=
  st.extensionUp

/-- Parsed `DaemonMessage`s arriving from a helper connection. -/
inductive DMsg where
  | register (id : String)
  | request (id : String) (sessionId : Option String) (action : Option String)
  | ping (id : String) (sessionId : Option String)
  | status (id : String)
  | disconnect (sessionId : Option String)
deriving Repr, DecidableEq

/-- Input events driving the daemon's event loop.  `extConnect` is a new
extension WebSocket (stored as the shared connection when none is held;
we model the single-uplink regime), `extResponse` a RESPONSE frame from
the extension, `extClose` the close of the extension WebSocket,
`timeoutFire` the 30 s timer of a pending entry (a cleared timer never
fires, and firing for an absent entry is a no-op). -/
inductive DEvent where
  | clientMsg (socketId : Nat) (msg : DMsg)
  | clientClose (socketId : Nat)
  | extConnect
  | extResponse (id : String) (payload : Option Payload)
  | extClose
  | timeoutFire (reqId : String)
deriving Repr, DecidableEq

/-- `handleRegister` (daemon.ts lines 270-310). -/
def handleRegister (st : DaemonState) (socketId : Nat) (msgId : String) :
    DaemonState × List Out :=
  if st.sessions.length ≥ MAX_SESSIONS then
    (st,
      [Out.client socketId (ClientMsg.registerError msgId
          "Maximum session limit (100) reached. Please close some sessions."),
        Out.endSocket socketId])
  else
    let sessionId := generateSessionId st.rand
    let session : Session :=
      ⟨sessionId, socketId, st.clock, st.clock⟩
    let st' := { st with
      sessions := mapSet st.sessions sessionId session,
      rand := st.rand + 1 }
    (st',
      (if st.extensionUp then [Out.extension (ExtMsg.sessionStart sessionId)] else [])
        ++ [Out.client socketId (ClientMsg.registerOk msgId sessionId)])

/-- Update `session.lastActiveAt = Date.now()` in place for one key. -/
def touchSession (sessions : List (String × Session)) (sid : String) (now : Nat) :
    List (String × Session) :=
  sessions.map fun q => if q.1 = sid then (q.1, { q.2 with lastActiveAt := now }) else q

/-- `handleRequest` (daemon.ts lines 315-365) together with the
synchronous part of `sendToExtension` (lines 222-254): validation
errors and the extension-absent rejection are answered at once; a
forwarded REQUEST registers a pending entry whose continuation replies
on the originating socket. -/
def handleRequest (st : DaemonState) (socketId : Nat) (msgId : String)
    (sessionId? : Option String) (action? : Option String) :
    DaemonState × List Out :=
  match sessionId? with
  | none =>
    (st, [Out.client socketId (ClientMsg.response msgId none
        ⟨false, none, some "Missing sessionId"⟩)])
  | some sid =>
    match mapGet st.sessions sid with
    | none =>
      (st, [Out.client socketId (ClientMsg.response msgId (some sid)
          ⟨false, none, some "Invalid session"⟩)])
    | some _ =>
      match action? with
      | none =>
        (st, [Out.client socketId (ClientMsg.response msgId (some sid)
            ⟨false, none, some "Missing action"⟩)])
      | some act =>
        if st.extensionUp then
          ({ st with pending := mapSet st.pending msgId ⟨sid, socketId, act⟩ },
            [Out.extension (ExtMsg.request msgId sid act)])
        else
          (st, [Out.client socketId (ClientMsg.response msgId (some sid)
              ⟨false, none, some "Browser extension not connected"⟩)])

/-- `handlePing` (daemon.ts lines 370-384). -/
def handlePing (st : DaemonState) (socketId : Nat) (msgId : String)
    (sessionId? : Option String) : DaemonState × List Out :=
  let st' :=
    match sessionId? with
    | none => st
    | some sid => { st with sessions := touchSession st.sessions sid st.clock }
  (st', [Out.client socketId (ClientMsg.pong msgId)])

/-- `handleStatus` (daemon.ts lines 389-396). -/
def handleStatus (st : DaemonState) (socketId : Nat) (msgId : String) :
    DaemonState × List Out :=
  (st, [Out.client socketId (ClientMsg.statusOk msgId (isExtensionConnected st)
      st.sessions.length)])

/-- Abort the pending entries of one session: each rejection lands in the
`catch` of `handleRequest`, which answers the owning helper socket. -/
def rejectPendingOfSession (pending : List (String × PendingRequest))
    (sid : String) (errMsg : String) :
    List (String × PendingRequest) × List Out :=
  (pending.filter fun q => ¬ q.2.sessionId = sid,
    (pending.filter fun q => q.2.sessionId = sid).map fun q =>
      Out.client q.2.replyTo (ClientMsg.response q.1 (some q.2.sessionId)
        ⟨false, none, some errMsg⟩))

/-- `handleDisconnect` (daemon.ts lines 401-435). -/
def handleDisconnect (st : DaemonState) (sessionId? : Option String) :
    DaemonState × List Out :=
  match sessionId? with
  | none => (st, [])
  | some sid =>
    match mapGet st.sessions sid with
    | none => (st, [])
    | some _ =>
      let (pending', outs) := rejectPendingOfSession st.pending sid "Session disconnected"
      ({ st with sessions := mapDelete st.sessions sid, pending := pending' },
        (if st.extensionUp then [Out.extension (ExtMsg.sessionEnd sid)] else [])
          ++ outs)

/-- First session whose socket is the given one (iteration order of the
`sessions` map in the socket close handler). -/
def findSessionBySocket : List (String × Session) → Nat → Option (String × Session)
  | [], _ => none
  | q :: rest, sid =>
    if q.2.socketId = sid then some q else findSessionBySocket rest sid

/-- The socket `close` handler (daemon.ts lines 491-525): it removes the
FIRST session bound to the closed socket and `break`s, so at most one
session is removed per close. -/
def handleClientClose (st : DaemonState) (socketId : Nat) : DaemonState × List Out :=
  match findSessionBySocket st.sessions socketId with
  | none => (st, [])
  | some (sid, _) =>
    let (pending', outs) := rejectPendingOfSession st.pending sid "Client disconnected"
    ({ st with sessions := mapDelete st.sessions sid, pending := pending' },
      (if st.extensionUp then [Out.extension (ExtMsg.sessionEnd sid)] else [])
        ++ outs)

/-- The extension `ws.on('message')` RESPONSE handler (daemon.ts lines
153-180).  The guard `message.type === 'RESPONSE' && message.id` skips
frames whose id is the empty (falsy) string; an id with no pending entry
does nothing. -/
def handleExtResponse (st : DaemonState) (id : String) (payload : Option Payload) :
    DaemonState × List Out :=
  if id = "" then (st, [])
  else
    match mapGet st.pending id with
    | none => (st, [])
    | some p =>
      let st' := { st with
        pending := mapDelete st.pending id,
        sessions := touchSession st.sessions p.sessionId st.clock }
      if (payload.map Payload.success).getD false then
        (st', [Out.client p.replyTo (ClientMsg.response id (some p.sessionId)
            ⟨true, payload.bind Payload.data, none⟩)])
      else
        (st', [Out.client p.replyTo (ClientMsg.response id (some p.sessionId)
            ⟨false, none, some ((payload.bind Payload.error).getD "Unknown error")⟩)])

/-- The extension `ws.on('close')` handler (daemon.ts lines 182-202):
drop the shared connection, reject every pending entry with
`Extension disconnected`, clear the pending table; sessions are not
touched. -/
def handleExtClose (st : DaemonState) : DaemonState × List Out :=
  ({ st with extensionUp := false, pending := [] },
    st.pending.map fun q =>
      Out.client q.2.replyTo (ClientMsg.response q.1 (some q.2.sessionId)
        ⟨false, none, some "Extension disconnected"⟩))

/-- The 30 s request timeout of `sendToExtension` (daemon.ts lines
237-240): delete the entry and reject with `Request timeout: action`. -/
def handleTimeout (st : DaemonState) (reqId : String) : DaemonState × List Out :=
  match mapGet st.pending reqId with
  | none => (st, [])
  | some p =>
    ({ st with pending := mapDelete st.pending reqId },
      [Out.client p.replyTo (ClientMsg.response reqId (some p.sessionId)
        ⟨false, none, some ("Request timeout: " ++ p.action)⟩)])

/-- One step of the daemon event loop. -/
def stepD (st : DaemonState) : DEvent → DaemonState × List Out
  | DEvent.clientMsg socketId msg =>
    match msg with
    | DMsg.register id => handleRegister st socketId id
    | DMsg.request id sid? act? => handleRequest st socketId id sid? act?
    | DMsg.ping id sid? => handlePing st socketId id sid?
    | DMsg.status id => handleStatus st socketId id
    | DMsg.disconnect sid? => handleDisconnect st sid?
  | DEvent.clientClose socketId => handleClientClose st socketId
  | DEvent.extConnect =>
    (if st.extensionUp then st else { st with extensionUp := true }, [])
  | DEvent.extResponse id payload => handleExtResponse st id payload
  | DEvent.extClose => handleExtClose st
  | DEvent.timeoutFire reqId => handleTimeout st reqId

/-- Run the daemon over a list of events, accumulating outputs. -/
def runD (st : DaemonState) : List DEvent → DaemonState × List Out
  | [] => (st, [])
  | e :: evs =>
    let (st', outs) := stepD st e
    let (st'', outs') := runD st' evs
    (st'', outs ++ outs')

/-- Daemon state right after start-up. -/
def initDaemon : DaemonState := ⟨[], [], false, 0, 0⟩

/-- Whether a reqId currently has a pending entry. -/
def pendingHas (st : DaemonState) (r : String) : Bool :=
  (mapGet st.pending r).isSome

/-- How many steps of a run complete (resolve, reject-by-timeout or
abort) the pending entry of a given reqId.  Every removal of the entry
from the pending table is exactly a completion of its continuation. -/
def compCountRun (st : DaemonState) (r : String) : List DEvent → Nat
  | [] => 0
  | e :: evs =>
    let st' := (stepD st e).1
    (if pendingHas st r ∧ ¬ pendingHas st' r then 1 else 0) + compCountRun st' r evs

/-- Whether an event is a helper REQUEST carrying a given reqId. -/
def isRequestWithId (r : String) : DEvent → Bool
  | DEvent.clientMsg _ (DMsg.request id _ _) => id = r
  | _ => false

/-- Number of helper REQUESTs carrying a given reqId in a trace. -/
def reqCountR (evs : List DEvent) (r : String) : Nat :=
  (evs.filter (isRequestWithId r)).length

/-- Socket ids of the REGISTER messages of a trace, in order. -/
def regSockets : List DEvent → List Nat
  | [] => []
  | DEvent.clientMsg sid (DMsg.register _) :: evs => sid :: regSockets evs
  | _ :: evs => regSockets evs

/-- Whether an event is an explicit DISCONNECT message. -/
def isDisconnectEvent : DEvent → Bool
  | DEvent.clientMsg _ (DMsg.disconnect _) => true
  | _ => false

/-- Remove the first occurrence of a socket id. -/
def eraseNat : List Nat → Nat → List Nat
  | [], _ => []
  | x :: xs, n => if x = n then xs else x :: eraseNat xs n

/-- The set (as an ordered duplicate-free list) of helper connections
that are alive and have COMPLETED register, read off the trace: a
REGISTER that is answered `REGISTER_OK` adds the socket, a connection
close removes it.  A REGISTER arriving while the table already holds
`MAX_SESSIONS` sessions is answered `REGISTER_ERROR` and never
completes, so it is not counted; under the tracking invariant the
session count equals this list's length, so the cap test here coincides
with the daemon's own `sessions.size >= MAX_SESSIONS` test. -/
def liveRegistered (acc : List Nat) : List DEvent → List Nat
  | [] => acc
  | DEvent.clientMsg sid (DMsg.register _) :: evs =>
    liveRegistered
      (if acc.length ≥ MAX_SESSIONS then acc
        else if sid ∈ acc then acc else acc ++ [sid]) evs
  | DEvent.clientClose sid :: evs => liveRegistered (eraseNat acc sid) evs
  | _ :: evs => liveRegistered acc evs

end Daemon

namespace Helper

/-- The helper's mutable module state in index.ts: `useDaemon`,
`daemonSocket` (liveness only), `sessionId`, the direct-mode
`extensionClient` (present and OPEN, or not), and `requestIdCounter`. -/
structure HelperState where
  useDaemon : Bool
  daemonConnected : Bool
  sessionId : Option String
  extensionOpen : Bool
  requestIdCounter : Nat
deriving Repr, DecidableEq

/-- `` `req_${++requestIdCounter}` `` — the id allocated for a forwarded
REQUEST, both in `sendViaDaemon` (index.ts line 317) and in the direct
branch of `sendToExtension` (line 421). -/
def nextRequestId (counter : Nat) : String × Nat :=
  ("req_" ++ toString (counter + 1), counter + 1)

/-- The connection-refusal message thrown by the direct branch of
`sendToExtension` (index.ts lines 414-418). -/
def notConnectedMsg : String :=
  "Browser extension not connected. Please ask the user to: 1) Open Chrome browser, 2) Click the Browser Agent extension icon, 3) Open the Side Panel. You can use browser_get_connection_status to check connection state."

/-- Result of one tool-call routing decision: resolved with data,
rejected/thrown with an error message, or re-sent on the direct
WebSocket (whose RESPONSE arrives later). -/
inductive Outcome where
  | ok (data : String)
  | errorMsg (msg : String)
  | awaitDirect (id : String)
deriving Repr, DecidableEq

/-- `sendViaDaemon` (index.ts lines 312-335).  The awaited daemon
RESPONSE is supplied as an oracle (`Except.ok` for `payload.success`,
`Except.error` for a rejection — an ok=false payload, a timeout, or a
cleared connection).  The second component of the result lists the
request ids actually sent to the daemon. -/
def sendViaDaemon (st : HelperState) (reply : Except String String) :
    HelperState × Except String String × List String :=
  if st.daemonConnected ∧ st.sessionId.isSome then
    let (id, c') := nextRequestId st.requestIdCounter
    ({ st with requestIdCounter := c' }, reply, [id])
  else
    (st, Except.error "Daemon not connected or session not registered", [])

/-- The direct branch of `sendToExtension` (index.ts lines 413-439):
throw the not-connected message, or allocate an id and send the REQUEST
on the direct WebSocket. -/
def directAttempt (st : HelperState) : HelperState × Outcome :=
  if st.extensionOpen then
    let (id, c') := nextRequestId st.requestIdCounter
    ({ st with requestIdCounter := c' }, Outcome.awaitDirect id)
  else
    (st, Outcome.errorMsg notConnectedMsg)

/-- `sendToExtension` (index.ts lines 400-440): prefer the daemon; on
any daemon-path rejection clear `useDaemon` and fall back to the direct
WebSocket path.  The last component lists request ids sent to the
daemon. -/
def sendToExtension (st : HelperState) (reply : Except String String) :
    HelperState × Outcome × List String :=
  if st.useDaemon ∧ st.daemonConnected ∧ st.sessionId.isSome then
    let (st1, r, sent) := sendViaDaemon st reply
    match r with
    | Except.ok d => (st1, Outcome.ok d, sent)
    | Except.error _ =>
      let (st2, o) := directAttempt { st1 with useDaemon := false }
      (st2, o, sent)
  else
    let (st1, o) := directAttempt st
    (st1, o, [])

/-- What the `CallToolRequestSchema` handler (index.ts lines 1331-1374)
makes of one non-status tool call: a successful result, an MCP error
whose text is `Error: ` + message, or a call still awaiting the direct
RESPONSE. -/
inductive McpOutcome where
  | success (text : String)
  | mcpError (text : String)
  | pendingDirect (id : String)
deriving Repr, DecidableEq

def mcpCallTool (st : HelperState) (reply : Except String String) :
    HelperState × McpOutcome :=
  let (st', o, _) := sendToExtension st reply
  match o with
  | Outcome.ok d => (st', McpOutcome.success d)
  | Outcome.errorMsg m => (st', McpOutcome.mcpError ("Error: " ++ m))
  | Outcome.awaitDirect id => (st', McpOutcome.pendingDirect id)

/-- The result shape of the `browser_get_connection_status` branch
(index.ts lines 1302-1329). -/
structure StatusReport where
  connected : Bool
  mode : String
  sessionId : Option String
deriving Repr, DecidableEq

/-- The `browser_get_connection_status` handler: purely local checks on
`useDaemon`/`daemonSocket`/`sessionId` and the direct client; the second
component lists the messages it sends to the daemon (none — it never
issues STATUS). -/
def connectionStatus (st : HelperState) : StatusReport × List String :=
  if st.useDaemon ∧ st.daemonConnected ∧ st.sessionId.isSome then
    (⟨true, "daemon", if st.useDaemon then st.sessionId else none⟩, [])
  else if st.extensionOpen then
    (⟨true, "direct", if st.useDaemon then st.sessionId else none⟩, [])
  else
    (⟨false, "unknown", if st.useDaemon then st.sessionId else none⟩, [])

/-- Post-startup events that can touch the helper's daemon-mode state:
a tool call (with its daemon-reply oracle), the daemon socket's `close`
event (index.ts lines 241-252), and `disconnectFromDaemon` (lines
340-360). -/
inductive HEvent where
  | toolCall (reply : Except String String)
  | daemonClosed
  | disconnectDaemon

def stepH (st : HelperState) : HEvent → HelperState
  | HEvent.toolCall reply => (sendToExtension st reply).1
  | HEvent.daemonClosed =>
    { st with daemonConnected := false, sessionId := none, useDaemon := false }
  | HEvent.disconnectDaemon =>
    { st with daemonConnected := false, sessionId := none, useDaemon := false }

def runH (st : HelperState) : List HEvent → HelperState
  | [] => st
  | e :: evs => runH (stepH st e) evs

/-- index.ts line 27 / daemon.ts line 26: the WebSocket port, from
`BROWSER_AGENT_WS_PORT` (supplied here already parsed) or 3026. -/
def wsPort (env : Option Nat) : Nat := env.getD 3026

/-- JavaScript `a || b` on environment strings: the empty string is
falsy. -/
def jsOrDefault (env : Option String) (d : String) : String :=
  match env with
  | none => d
  | some s => if s = "" then d else s

/-- daemon.ts line 25: `process.env.BROWSER_AGENT_WS_HOST || '0.0.0.0'`. -/
def daemonWsHost (env : Option String) : String := jsOrDefault env "0.0.0.0"

/-- index.ts line 1163: the helper's direct-mode WebSocket server binds
`host: '0.0.0.0'`, with no environment override. -/
def helperDirectHost : String := "0.0.0.0"

end Helper

namespace Panel

/-- `interface SessionBinding` of sidepanel.ts. -/
structure SessionBinding where
  sessionId : String
  tabId : Nat
  createdAt : Nat
  lastActiveAt : Nat
deriving Repr, DecidableEq

/-- Side-panel state: the `sessionBindings` map plus a model of the
browser's open tabs (`chrome.tabs.get` succeeds exactly on `tabs`;
`chrome.tabs.create` yields `nextTab`).  `clock` is the constant
`Date.now()` model. -/
structure PanelState where
  sessionBindings : List (String × SessionBinding)
  tabs : List Nat
  nextTab : Nat
  clock : Nat
deriving Repr, DecidableEq

/-- A REQUEST frame as read by the side panel.  `params` is opaque to
the panel except for a possible `tabId` member, which is the only part
a claim mentions. -/
structure WSRequest where
  id : String
  sessionId : Option String
  action : String
  paramsTabId : Option Nat
deriving Repr, DecidableEq

/-- Observable side-panel outputs: a SESSION_START frame to the server,
and the `chrome.runtime.sendMessage` forward of an MCP_REQUEST carrying
`id`, `action`, `params` (its `tabId` member shown) and the resolved
`tabId`. -/
inductive PanelOut where
  | sessionStartSent (sessionId : String)
  | forward (id : String) (action : String) (paramsTabId : Option Nat)
      (tabId : Option Nat)
deriving Repr, DecidableEq

/-- `chrome.tabs.create` model: a fresh tab id. -/
def createTab (st : PanelState) : PanelState × Nat :=
  ({ st with tabs := st.tabs ++ [st.nextTab], nextTab := st.nextTab + 1 }, st.nextTab)

/-- `getOrCreateTabForSession` (sidepanel.ts lines 257-304): create and
bind a fresh tab on first sight of a session (announcing SESSION_START);
afterwards refresh `lastActiveAt` and reuse the bound tab, recreating it
if it was closed. -/
def getOrCreateTabForSession (st : PanelState) (sid : String) :
    PanelState × Nat × List PanelOut :=
  match mapGet st.sessionBindings sid with
  | none =>
    let (st1, t) := createTab st
    let binding : SessionBinding := ⟨sid, t, st.clock, st.clock⟩
    ({ st1 with sessionBindings := mapSet st1.sessionBindings sid binding },
      t, [PanelOut.sessionStartSent sid])
  | some b =>
    let b1 : SessionBinding := { b with lastActiveAt := st.clock }
    if b1.tabId ∈ st.tabs then
      ({ st with sessionBindings := mapSet st.sessionBindings sid b1 }, b1.tabId, [])
    else
      let (st1, t) := createTab st
      let b2 : SessionBinding := { b1 with tabId := t }
      ({ st1 with sessionBindings := mapSet st1.sessionBindings sid b2 },
        t, [])

/-- The REQUEST branch of `ws.onmessage` (sidepanel.ts lines 470-524):
resolve a tab from the request's `sessionId` alone (the request's
`params.tabId` is never consulted), then forward the MCP_REQUEST with
the resolved tab. -/
def handleRequestMessage (st : PanelState) (req : WSRequest) :
    PanelState × List PanelOut :=
  match req.sessionId with
  | some sid =>
    let (st1, tabId, outs) := getOrCreateTabForSession st sid
    (st1, outs ++ [PanelOut.forward req.id req.action req.paramsTabId (some tabId)])
  | none =>
    (st, [PanelOut.forward req.id req.action req.paramsTabId none])

end Panel

namespace SessionBinding

/-- JavaScript `toLowerCase` on the ASCII range (all characters the
compared literals contain are ASCII). -/
def jsToLower (s : String) : String := String.mk (s.toList.map Char.toLower)

/-- The test `/^https?:\/\//i.test(url)` of `isScriptableUrl`. -/
def httpRegexTest (u : String) : Bool :=
  strStartsWith (jsToLower u) "http://" || strStartsWith (jsToLower u) "https://"

def isAuthorityEnd (c : Char) : Bool := c = '/' || c = '?' || c = '#'

/-- Strip the `http://` or `https://` scheme prefix. -/
def afterScheme (u : String) : Option (List Char) :=
  if strStartsWith (jsToLower u) "http://" then some (u.toList.drop 7)
  else if strStartsWith (jsToLower u) "https://" then some (u.toList.drop 8)
  else none

/-- Hostname within an authority: after the last `@` (userinfo), before
the first `:` (port).  Bracketed IPv6 hosts are outside this model. -/
def hostnameOf (auth : List Char) : List Char :=
  ((auth.reverse.takeWhile (fun c => ¬ c = '@')).reverse).takeWhile
    (fun c => ¬ c = ':')

/-- Pathname: the serialized path of a special-scheme URL is `/` when
empty, else runs to the first `?` or `#`. -/
def pathnameOf (rest : List Char) : List Char :=
  match rest with
  | '/' :: _ => rest.takeWhile (fun c => ¬ (c = '?' || c = '#'))
  | _ => ['/']

/-- Model of `new URL(url)` for http(s) URLs: `(hostname, pathname)`,
with the hostname lowercased as WHATWG prescribes; parsing fails (the
constructor throws) when the host is empty. -/
def parseHttpUrl (u : String) : Option (String × String) :=
  match afterScheme u with
  | none => none
  | some cs =>
    let auth := cs.takeWhile (fun c => ¬ isAuthorityEnd c)
    let rest := cs.dropWhile (fun c => ¬ isAuthorityEnd c)
    let host := hostnameOf auth
    if host.isEmpty then none
    else some (jsToLower (String.mk host), String.mk (pathnameOf rest))

/-- `isScriptableUrl` (session-binding.ts lines 681-702). -/
def isScriptableUrl : Option String → Bool
  | none => false
  | some url =>
    if ¬ httpRegexTest url then false
    else
      match parseHttpUrl url with
      | none => false
      | some (hostname, pathname) =>
        let host := jsToLower hostname
        if host = "chromewebstore.google.com" then false
        else if host = "chrome.google.com" ∧ strStartsWith pathname "/webstore" then false
        else true

end SessionBinding

/-- Substring test (used to state what an error text does not contain). -/
def containsSub (s sub : String) : Bool :=
  s.toList.tails.any fun t => sub.toList.isPrefixOf t

end BrowserAgent

open BrowserAgent
open BrowserAgent.Daemon
open BrowserAgent.Helper
open BrowserAgent.Panel
open BrowserAgent.SessionBinding

/-- A helper connection (socket 0) that completes REGISTER twice and
then closes. -/
def doubleRegisterTrace : List DEvent :=
  [DEvent.clientMsg 0 (DMsg.register "r1"),
    DEvent.clientMsg 0 (DMsg.register "r2"),
    DEvent.clientClose 0]

/-- Two helpers (sockets 0 and 1) each register; each forwards one
REQUEST whose id is the first value of its own `req_` counter — the
same string `req_1` for both. -/
def clobberTrace : List DEvent :=
  [DEvent.extConnect,
    DEvent.clientMsg 0 (DMsg.register "rA"),
    DEvent.clientMsg 1 (DMsg.register "rB"),
    DEvent.clientMsg 0 (DMsg.request "req_1" (some "sess_") (some "navigate")),
    DEvent.clientMsg 1 (DMsg.request "req_1" (some "sess_x") (some "click"))]

/-- The clobber scenario continued: the first helper's request is
answered, then the second helper re-registers the same reqId and that
is answered too. -/
def doubleCompleteTrace : List DEvent :=
  [DEvent.extConnect,
    DEvent.clientMsg 0 (DMsg.register "rA"),
    DEvent.clientMsg 1 (DMsg.register "rB"),
    DEvent.clientMsg 0 (DMsg.request "req_1" (some "sess_") (some "navigate")),
    DEvent.extResponse "req_1" (some ⟨true, some "ok", none⟩),
    DEvent.clientMsg 1 (DMsg.request "req_1" (some "sess_x") (some "click")),
    DEvent.extResponse "req_1" (some ⟨true, some "ok2", none⟩)]

/-- Two helpers that register and one of them closes (a well-formed
run for the session-count invariant). -/
def twoHelperTrace : List DEvent :=
  [DEvent.clientMsg 0 (DMsg.register "r1"),
    DEvent.clientMsg 1 (DMsg.register "r2"),
    DEvent.clientClose 0]

/-- A helper in daemon mode (registered session, daemon socket up, no
direct extension client). -/
def daemonModeState : HelperState := ⟨true, true, some "sess_", false, 0⟩

/-- A run in which one helper registers, forwards one request and gets
one answer (request ids unique). -/
def singleRequestTrace : List DEvent :=
  [DEvent.extConnect,
    DEvent.clientMsg 0 (DMsg.register "rA"),
    DEvent.clientMsg 0 (DMsg.request "req_1" (some "sess_") (some "navigate")),
    DEvent.extResponse "req_1" (some ⟨true, some "ok", none⟩)]

/-- A side panel with session `s1` bound to tab 7 while tabs 7 and 42
exist. -/
def panelStateS1 : PanelState := ⟨[("s1", ⟨"s1", 7, 0, 0⟩)], [7, 42], 100, 0⟩

/-- C1: the helper does not allocate `sessionId:counter` request ids.
`sendViaDaemon` allocates `req_` followed by the per-helper counter, so
two helpers both start at `req_1`; no id begins with a session id
(session ids all begin `sess_`); and when both colliding REQUESTs reach
the daemon, the second `Map.set` overwrites the first helper's pending
entry, so only the second helper's continuation remains. -/
theorem c1_request_id_scheme_not_implemented :
    (BrowserAgent.Helper.nextRequestId 0).1 = "req_1" ∧
    strStartsWith "req_1" "sess_" = false ∧
    generateSessionId 0 ≠ generateSessionId 1 ∧
    (runD initDaemon clobberTrace).1.pending =
      [("req_1", ⟨"sess_x", 1, "click"⟩)] := by decide

/-- C2: `browser_get_connection_status` in daemon mode sends nothing to
the daemon (it never issues STATUS) and reports `connected: true` from
purely local state, even while the daemon's extension WebSocket is
absent (`isExtensionConnected` false). -/
theorem c2_connection_status_is_not_live :
    (connectionStatus daemonModeState).1 = ⟨true, "daemon", some "sess_"⟩ ∧
    (connectionStatus daemonModeState).2 = [] ∧
    isExtensionConnected initDaemon = false ∧
    (connectionStatus daemonModeState).1.connected ≠ isExtensionConnected initDaemon := by
  decide

/-- C3: the side panel never consults `params.tabId`.  With session
`s1` bound to tab 7, a REQUEST carrying `params.tabId = 42` (an
existing tab) is executed on tab 7 and the binding is not moved; a
REQUEST carrying `params.tabId = 99` (no such tab) produces no
`tab not found` error — it is likewise executed on tab 7. -/
theorem c3_explicit_tab_id_ignored :
    handleRequestMessage panelStateS1 ⟨"r1", some "s1", "click", some 42⟩ =
      (panelStateS1, [PanelOut.forward "r1" "click" (some 42) (some 7)]) ∧
    handleRequestMessage panelStateS1 ⟨"r1", some "s1", "click", some 99⟩ =
      (panelStateS1, [PanelOut.forward "r1" "click" (some 99) (some 7)]) := by
  decide

set_option maxRecDepth 8192 in
/-- C4 counterexample: in daemon mode with no direct extension client,
a daemon RESPONSE with ok=false and error `boom` is NOT surfaced as an
MCP error containing `boom`: the helper falls back to the direct path
and surfaces that path's connection-refusal message instead. -/
theorem c4_counterexample_error_string_lost :
    (mcpCallTool daemonModeState (Except.error "boom")).2 =
      McpOutcome.mcpError ("Error: " ++ notConnectedMsg) ∧
    containsSub ("Error: " ++ notConnectedMsg) "boom" = false := by decide

/-- C6: when the extension WebSocket closes, every pending entry is
rejected with an `Extension disconnected` error delivered to its owning
helper socket, the pending table is left empty, and the session table
is untouched. -/
theorem c6_extension_close_aborts_pending_only (st : DaemonState) :
    (stepD st DEvent.extClose).1.pending = [] ∧
    (stepD st DEvent.extClose).1.sessions = st.sessions ∧
    (stepD st DEvent.extClose).2 =
      st.pending.map (fun q => Out.client q.2.replyTo
        (ClientMsg.response q.1 (some q.2.sessionId)
          ⟨false, none, some "Extension disconnected"⟩)) :=
  ⟨rfl, rfl, rfl⟩

/-- C8: with no environment overrides, the extension-uplink WebSocket
endpoint binds host `0.0.0.0` — not `127.0.0.1` — both for the daemon
(default of `BROWSER_AGENT_WS_HOST`) and for the helper's direct mode
(hard-coded, not configurable); the port defaults to 3026. -/
theorem c8_ws_endpoint_binds_all_interfaces :
    daemonWsHost none = "0.0.0.0" ∧
    helperDirectHost = "0.0.0.0" ∧
    daemonWsHost none ≠ "127.0.0.1" ∧
    helperDirectHost ≠ "127.0.0.1" ∧
    wsPort none = 3026 ∧
    daemonWsHost (some "127.0.0.1") = "127.0.0.1" := by decide

/-- A map misses a key iff no entry carries it. -/
theorem mapGet_eq_none_iff {κ α : Type} [DecidableEq κ] (m : List (κ × α)) (k : κ) :
    mapGet m k = none ↔ ∀ q ∈ m, q.1 ≠ k := by
  induction m with
  | nil => simp [mapGet]
  | cons p rest ih =>
    by_cases h : p.1 = k
    · simp [mapGet, h]
    · simp [mapGet, h, ih]

/-- Setting an absent key appends the entry. -/
theorem mapSet_of_get_none {κ α : Type} [DecidableEq κ] (m : List (κ × α)) (k : κ)
    (v : α) (h : mapGet m k = none) : mapSet m k v = m ++ [(k, v)] := by
  induction m with
  | nil => rfl
  | cons p rest ih =>
    rw [mapGet_eq_none_iff] at h
    have hp : p.1 ≠ k := h p (List.mem_cons_self p rest)
    simp only [mapSet, if_neg hp, List.cons_append]
    refine congrArg _ (ih ?_)
    rw [mapGet_eq_none_iff]
    exact fun q hq => h q (List.mem_cons_of_mem p hq)

/-- Deleting yields a sublist. -/
theorem mapDelete_sublist {κ α : Type} [DecidableEq κ] (m : List (κ × α)) (k : κ) :
    List.Sublist (mapDelete m k) m := by
  induction m with
  | nil => simp [mapDelete]
  | cons p rest ih =>
    by_cases h : p.1 = k
    · simp only [mapDelete, if_pos h]
      exact List.sublist_cons_self p rest
    · simp only [mapDelete, if_neg h]
      exact List.Sublist.cons₂ p ih

theorem mem_mapDelete {κ α : Type} [DecidableEq κ] {m : List (κ × α)} {k : κ}
    {q : κ × α} (h : q ∈ mapDelete m k) : q ∈ m :=
  (mapDelete_sublist m k).mem h

/-- Setting another key does not change a lookup. -/
theorem mapGet_mapSet_ne {κ α : Type} [DecidableEq κ] (m : List (κ × α))
    (k r : κ) (v : α) (h : ¬ k = r) : mapGet (mapSet m k v) r = mapGet m r := by
  induction m with
  | nil => simp [mapSet, mapGet, h]
  | cons p rest ih =>
    by_cases hp : p.1 = k
    · simp [mapSet, mapGet, hp, h]
    · have hrk : ¬ r = k := fun hh => h hh.symm
      by_cases hr : p.1 = r
      · simp [mapSet, mapGet, hp, hr, hrk]
      · simp [mapSet, mapGet, hp, hr, hrk, ih]

/-- An absent key stays absent under a filter. -/
theorem mapGet_filter_none {κ α : Type} [DecidableEq κ] (m : List (κ × α))
    (p : κ × α → Bool) (r : κ) (h : mapGet m r = none) :
    mapGet (m.filter p) r = none := by
  rw [mapGet_eq_none_iff] at h ⊢
  exact fun q hq => h q (List.mem_of_mem_filter hq)

/-- An absent key stays absent under a delete. -/
theorem mapGet_mapDelete_none {κ α : Type} [DecidableEq κ] (m : List (κ × α))
    (k r : κ) (h : mapGet m r = none) : mapGet (mapDelete m k) r = none := by
  rw [mapGet_eq_none_iff] at h ⊢
  exact fun q hq => h q (mem_mapDelete hq)

theorem eraseNat_of_not_mem {l : List Nat} {n : Nat} (h : n ∉ l) :
    eraseNat l n = l := by
  induction l with
  | nil => rfl
  | cons x xs ih =>
    have hx : ¬ x = n := fun hxn => h (hxn ▸ List.mem_cons_self x xs)
    simp only [eraseNat, if_neg hx]
    exact congrArg _ (ih fun hm => h (List.mem_cons_of_mem x hm))

theorem mem_eraseNat {l : List Nat} {n x : Nat} (h : x ∈ eraseNat l n) : x ∈ l := by
  induction l with
  | nil => simp [eraseNat] at h
  | cons y ys ih =>
    by_cases hy : y = n
    · simp only [eraseNat, if_pos hy] at h
      exact List.mem_cons_of_mem y h
    · simp only [eraseNat, if_neg hy] at h
      rcases List.mem_cons.mp h with h1 | h2
      · exact h1 ▸ List.mem_cons_self y ys
      · exact List.mem_cons_of_mem y (ih h2)

theorem eraseNat_length_le (l : List Nat) (n : Nat) :
    (eraseNat l n).length ≤ l.length := by
  induction l with
  | nil => simp [eraseNat]
  | cons y ys ih =>
    by_cases hy : y = n
    · simp [eraseNat, hy]
    · simp only [eraseNat, if_neg hy, List.length_cons]
      exact Nat.succ_le_succ ih

/-- The fresh-name supply of `generateSessionId` is injective. -/
theorem generateSessionId_inj {i j : Nat}
    (h : generateSessionId i = generateSessionId j) : i = j := by
  have hd : ("sess_".data ++ List.replicate i 'x') =
      ("sess_".data ++ List.replicate j 'x') := congrArg String.data h
  have hr := List.append_cancel_left hd
  have := congrArg List.length hr
  simpa using this

theorem touchSession_map_fst (s : List (String × Daemon.Session)) (sid : String)
    (n : Nat) : (touchSession s sid n).map Prod.fst = s.map Prod.fst := by
  induction s with
  | nil => rfl
  | cons p rest ih =>
    by_cases h : p.1 = sid <;> simp [touchSession, h] <;>
      simpa [touchSession] using ih

theorem touchSession_map_socketId (s : List (String × Daemon.Session)) (sid : String)
    (n : Nat) :
    (touchSession s sid n).map (fun q => q.2.socketId) =
      s.map (fun q => q.2.socketId) := by
  induction s with
  | nil => rfl
  | cons p rest ih =>
    by_cases h : p.1 = sid <;> simp [touchSession, h] <;>
      simpa [touchSession] using ih

theorem findSessionBySocket_none_iff (s : List (String × Daemon.Session)) (sid : Nat) :
    findSessionBySocket s sid = none ↔ sid ∉ s.map (fun q => q.2.socketId) := by
  induction s with
  | nil => simp [findSessionBySocket]
  | cons p rest ih =>
    by_cases h : p.2.socketId = sid
    · simp [findSessionBySocket, h]
    · simp only [findSessionBySocket, if_neg h, List.map_cons, List.mem_cons]
      rw [ih]
      constructor
      · intro hn hmem
        rcases hmem with h1 | h2
        · exact h h1.symm
        · exact hn h2
      · intro hn hmem
        exact hn (Or.inr hmem)

theorem findSessionBySocket_mem {s : List (String × Daemon.Session)} {sid : Nat}
    {q : String × Daemon.Session} (h : findSessionBySocket s sid = some q) : q ∈ s := by
  induction s with
  | nil => simp [findSessionBySocket] at h
  | cons p rest ih =>
    by_cases hp : p.2.socketId = sid
    · simp only [findSessionBySocket, if_pos hp, Option.some.injEq] at h
      exact h ▸ List.mem_cons_self p rest
    · simp only [findSessionBySocket, if_neg hp] at h
      exact List.mem_cons_of_mem p (ih h)

theorem pendingHas_false_iff (st : DaemonState) (r : String) :
    pendingHas st r = false ↔ mapGet st.pending r = none := by
  unfold pendingHas
  cases mapGet st.pending r <;> simp

/-- No step of the daemon creates a pending entry for a reqId except a
helper REQUEST carrying that id. -/
theorem stepD_pending_not_added (st : DaemonState) (e : DEvent) (r : String)
    (hr : pendingHas st r = false) (he : isRequestWithId r e = false) :
    pendingHas (stepD st e).1 r = false := by
  have hget : mapGet st.pending r = none := (pendingHas_false_iff st r).mp hr
  rw [pendingHas_false_iff]
  cases e with
  | clientMsg sid msg =>
    cases msg with
    | register id =>
      simp only [stepD, handleRegister]
      split <;> simp [hget]
    | request id sid? act? =>
      have hid : ¬ id = r := by simpa [isRequestWithId] using he
      simp only [stepD, handleRequest]
      rcases sid? with _ | s
      · simpa using hget
      · rcases hms : mapGet st.sessions s with _ | sess
        · simpa [hms] using hget
        · rcases act? with _ | act
          · simpa [hms] using hget
          · by_cases hup : st.extensionUp <;>
              simp [hms, hup, hget, mapGet_mapSet_ne _ _ _ _ hid]
    | ping id sid? =>
      simp only [stepD, handlePing]
      rcases sid? with _ | s <;> simp [hget]
    | status id =>
      simp only [stepD, handleStatus]
      simpa using hget
    | disconnect sid? =>
      simp only [stepD, handleDisconnect]
      rcases sid? with _ | s
      · simpa using hget
      · rcases hms : mapGet st.sessions s with _ | sess <;>
          simp [hms, rejectPendingOfSession, hget, mapGet_filter_none]
  | clientClose sid =>
    simp only [stepD, handleClientClose]
    rcases hf : findSessionBySocket st.sessions sid with _ | q <;>
      simp [hf, rejectPendingOfSession, hget, mapGet_filter_none]
  | extConnect =>
    simp only [stepD]
    split <;> simpa using hget
  | extResponse id pl =>
    simp only [stepD, handleExtResponse]
    by_cases hid : id = ""
    · simpa [hid] using hget
    · rcases hmp : mapGet st.pending id with _ | p
      · simpa [hid, hmp] using hget
      · by_cases hps : (pl.map Payload.success).getD false <;>
          simp [hid, hmp, hps, hget, mapGet_mapDelete_none]
  | extClose =>
    simp only [stepD, handleExtClose]
    simp [mapGet]
  | timeoutFire reqId =>
    simp only [stepD, handleTimeout]
    rcases hmp : mapGet st.pending reqId with _ | p <;>
      simp [hmp, hget, mapGet_mapDelete_none]

theorem reqCountR_cons (e : DEvent) (evs : List DEvent) (r : String) :
    reqCountR (e :: evs) r =
      (if isRequestWithId r e then 1 else 0) + reqCountR evs r := by
  unfold reqCountR
  by_cases h : isRequestWithId r e <;> simp [List.filter_cons, h, Nat.add_comm]

theorem compCountRun_cons (st : DaemonState) (r : String) (e : DEvent)
    (evs : List DEvent) :
    compCountRun st r (e :: evs) =
      (if pendingHas st r ∧ ¬ pendingHas (stepD st e).1 r then 1 else 0) +
        compCountRun (stepD st e).1 r evs := rfl

/-- Completions of a reqId are bounded by the REQUESTs carrying it plus
a possible initial pending entry. -/
theorem compCountRun_le (r : String) :
    ∀ (evs : List DEvent) (st : DaemonState),
      compCountRun st r evs ≤
        reqCountR evs r + (if pendingHas st r then 1 else 0) := by
  intro evs
  induction evs with
  | nil =>
    intro st
    simp [compCountRun, reqCountR]
  | cons e evs ih =>
    intro st
    have hstep := ih (stepD st e).1
    rw [compCountRun_cons, reqCountR_cons]
    by_cases hb : pendingHas st r = true
    · by_cases hb' : pendingHas (stepD st e).1 r = true <;>
        by_cases hreq : isRequestWithId r e = true <;>
        simp [hb, hb', hreq] at hstep ⊢ <;> omega
    · have hbf : pendingHas st r = false := by
        cases hx : pendingHas st r
        · rfl
        · exact absurd hx hb
      by_cases hreq : isRequestWithId r e = true
      · by_cases hb' : pendingHas (stepD st e).1 r = true <;>
          simp [hbf, hb', hreq] at hstep ⊢ <;> omega
      · have hreqf : isRequestWithId r e = false := by
          cases hx : isRequestWithId r e
          · rfl
          · exact absurd hx hreq
        have hb' := stepD_pending_not_added st e r hbf hreqf
        simp [hbf, hb', hreqf] at hstep ⊢
        omega

/-- C7 counterexample: reqIds can complete twice.  In the two-helper
collision run, the shared id `req_1` is registered, answered, registered
again by the other helper, and answered again: two completions. -/
theorem c7_counterexample_double_completion :
    compCountRun initDaemon "req_1" doubleCompleteTrace = 2 := by decide

/-- C7 (amended): provided a reqId is carried by at most one REQUEST of
the run (request-id uniqueness, which the helpers' `req_` counters do
not in fact guarantee), the reqId completes at most once; and a
RESPONSE whose reqId has no pending entry is silently discarded — the
state is unchanged and nothing is resolved, rejected or forwarded. -/
theorem c7_reqid_completes_at_most_once (st : DaemonState) (r : String)
    (evs : List DEvent) (pl : Option Daemon.Payload)
    (h0 : pendingHas st r = false) (h1 : reqCountR evs r ≤ 1) :
    compCountRun st r evs ≤ 1 ∧
    stepD st (DEvent.extResponse r pl) = (st, []) := by
  constructor
  · have hle := compCountRun_le r evs st
    simp [h0] at hle
    omega
  · have hget := (pendingHas_false_iff st r).mp h0
    simp only [stepD, handleExtResponse]
    by_cases hid : r = "" <;> simp [hid, hget]

/-- Witness: a run with one registered helper, one forwarded request
and one response completes `req_1` at most once, and a stray RESPONSE
for an unknown reqId is discarded. -/
theorem c7_reqid_completes_at_most_once_witness :
    compCountRun initDaemon "req_1" singleRequestTrace ≤ 1 ∧
    stepD initDaemon (DEvent.extResponse "req_1" none) = (initDaemon, []) :=
  c7_reqid_completes_at_most_once initDaemon "req_1" singleRequestTrace none
    (by decide) (by decide)

theorem directAttempt_useDaemon (st : HelperState) :
    (directAttempt st).1.useDaemon = st.useDaemon := by
  unfold directAttempt
  by_cases h : st.extensionOpen <;> simp [h, nextRequestId]

/-- C4 (amended): in daemon mode an ok=true RESPONSE is surfaced as a
successful result and exactly one daemon REQUEST was sent; any
daemon-path rejection (an ok=false RESPONSE included) clears
`useDaemon` and re-routes the call to the direct path — re-sent on the
direct WebSocket when a client is open, otherwise a single MCP error
with the connection-refusal message (which does not embed the daemon
RESPONSE's error string). -/
theorem c4_daemon_reply_routing (st : HelperState) (d e : String)
    (h1 : st.useDaemon = true) (h2 : st.daemonConnected = true)
    (h3 : st.sessionId.isSome = true) :
    sendToExtension st (Except.ok d) =
      ({ st with requestIdCounter := st.requestIdCounter + 1 }, Outcome.ok d,
        ["req_" ++ toString (st.requestIdCounter + 1)]) ∧
    (sendToExtension st (Except.error e)).1.useDaemon = false ∧
    (sendToExtension st (Except.error e)).2.1 =
      (if st.extensionOpen then
        Outcome.awaitDirect ("req_" ++ toString (st.requestIdCounter + 2))
      else Outcome.errorMsg notConnectedMsg) := by
  refine ⟨?_, ?_, ?_⟩
  · simp [sendToExtension, sendViaDaemon, nextRequestId, h1, h2, h3]
  · by_cases hE : st.extensionOpen <;>
      simp [sendToExtension, sendViaDaemon, directAttempt, nextRequestId,
        h1, h2, h3, hE]
  · by_cases hE : st.extensionOpen <;>
      simp [sendToExtension, sendViaDaemon, directAttempt, nextRequestId,
        h1, h2, h3, hE]

/-- Witness: in the daemon-mode state an ok reply is surfaced as the
result and an error reply clears `useDaemon`. -/
theorem c4_daemon_reply_routing_witness :
    (sendToExtension daemonModeState (Except.ok "data")).2.1 = Outcome.ok "data" ∧
    (sendToExtension daemonModeState (Except.error "boom")).1.useDaemon = false := by
  have h := c4_daemon_reply_routing daemonModeState "data" "boom" rfl rfl rfl
  exact ⟨by rw [h.1], h.2.1⟩

/-- C9: `isScriptableUrl` is false on a missing URL and on URLs that do
not begin with `http://` or `https://` (case-insensitively, as the
regex tests); on an https URL that parses to a hostname and pathname it
is true, except for the web-store hosts `chromewebstore.google.com`
and `chrome.google.com` with a path under `/webstore`. -/
theorem c9_is_scriptable_url :
    isScriptableUrl none = false ∧
    (∀ u : String, httpRegexTest u = false → isScriptableUrl (some u) = false) ∧
    (∀ u hn p : String, strStartsWith (jsToLower u) "https://" = true →
      parseHttpUrl u = some (hn, p) →
      jsToLower hn ≠ "chromewebstore.google.com" →
      ¬ (jsToLower hn = "chrome.google.com" ∧ strStartsWith p "/webstore" = true) →
      isScriptableUrl (some u) = true) ∧
    isScriptableUrl (some "https://chromewebstore.google.com/detail/app") = false ∧
    isScriptableUrl (some "https://chrome.google.com/webstore/detail/app") = false := by
  refine ⟨rfl, ?_, ?_, by decide, by decide⟩
  · intro u hu
    simp [isScriptableUrl, hu]
  · intro u hn p hs hp hh hwp
    have hregex : httpRegexTest u = true := by
      simp [httpRegexTest, hs]
    simp only [isScriptableUrl, hregex, Bool.not_true, Bool.false_eq_true,
      if_false, hp]
    rw [if_neg hh, if_neg hwp]
    simp

/-- Witness: a chrome:// URL is not scriptable, an ordinary https page
is. -/
theorem c9_is_scriptable_url_witness :
    isScriptableUrl (some "chrome://extensions") = false ∧
    isScriptableUrl (some "https://example.com/a") = true :=
  ⟨c9_is_scriptable_url.2.1 "chrome://extensions" (by decide),
    c9_is_scriptable_url.2.2.1 "https://example.com/a" "example.com" "/a"
      (by decide) (by decide) (by decide) (by decide)⟩

theorem stepH_keeps_useDaemon_false (st : HelperState) (e : HEvent)
    (h : st.useDaemon = false) : (stepH st e).useDaemon = false := by
  cases e with
  | toolCall r =>
    simp only [stepH, sendToExtension, h]
    simp [directAttempt_useDaemon, h]
  | daemonClosed => rfl
  | disconnectDaemon => rfl

theorem runH_keeps_useDaemon_false (evs : List HEvent) (st : HelperState)
    (h : st.useDaemon = false) : (runH st evs).useDaemon = false := by
  induction evs generalizing st with
  | nil => exact h
  | cons e evs ih => exact ih (stepH st e) (stepH_keeps_useDaemon_false st e h)

/-- C10: a daemon-path rejection clears `useDaemon`; no later event of
the process ever sets it back; and once `useDaemon` is clear every tool
call is routed by the direct branch alone, sending nothing to the
daemon. -/
theorem c10_daemon_fallback_is_permanent (st : HelperState) (e : String)
    (h1 : st.useDaemon = true) (h2 : st.daemonConnected = true)
    (h3 : st.sessionId.isSome = true) :
    (stepH st (HEvent.toolCall (Except.error e))).useDaemon = false ∧
    (∀ (st' : HelperState) (evs : List HEvent), st'.useDaemon = false →
      (runH st' evs).useDaemon = false) ∧
    (∀ (st' : HelperState) (r : Except String String), st'.useDaemon = false →
      sendToExtension st' r = ((directAttempt st').1, (directAttempt st').2, [])) := by
  refine ⟨?_, ?_, ?_⟩
  · by_cases hE : st.extensionOpen <;>
      simp [stepH, sendToExtension, sendViaDaemon, directAttempt, nextRequestId,
        h1, h2, h3, hE]
  · intro st' evs h'
    exact runH_keeps_useDaemon_false evs st' h'
  · intro st' r h'
    simp [sendToExtension, h']

/-- Witness: the daemon-mode helper loses `useDaemon` on one rejected
call, a cleared helper keeps it cleared across later events, and its
calls go out on the direct path only. -/
theorem c10_daemon_fallback_is_permanent_witness :
    (stepH daemonModeState (HEvent.toolCall (Except.error "boom"))).useDaemon = false ∧
    (runH ⟨false, true, some "sess_", true, 0⟩
      [HEvent.toolCall (Except.ok "d"), HEvent.daemonClosed]).useDaemon = false := by
  have h := c10_daemon_fallback_is_permanent daemonModeState "boom" rfl rfl rfl
  exact ⟨h.1, h.2.1 ⟨false, true, some "sess_", true, 0⟩ _ rfl⟩

theorem nodup_concat_of_not_mem {α : Type} {l : List α} {x : α}
    (h : l.Nodup) (hx : x ∉ l) : (l ++ [x]).Nodup := by
  simp [List.nodup_append, h, hx]

theorem key_not_mem_of_get_none {α : Type} {s : List (String × α)} {k : String}
    (h : mapGet s k = none) : k ∉ s.map Prod.fst := by
  intro hk
  rcases List.mem_map.mp hk with ⟨q, hq, he⟩
  exact (mapGet_eq_none_iff s k).mp h q hq he

/-- A property of the keys survives any fst-preserving rewrite of the
entries. -/
theorem keys_pred_of_map_fst_eq {α : Type} {s s' : List (String × α)}
    (h : s'.map Prod.fst = s.map Prod.fst) {P : String → Prop}
    (hp : ∀ q ∈ s, P q.1) : ∀ q ∈ s', P q.1 := by
  intro q hq
  have hmem : q.1 ∈ s'.map Prod.fst := List.mem_map_of_mem Prod.fst hq
  rw [h] at hmem
  rcases List.mem_map.mp hmem with ⟨q0, hq0, he⟩
  exact he ▸ hp q0 hq0

/-- Removing the session found by socket matches erasing that socket
from the socket-id projection (the keys being duplicate-free). -/
theorem removeFound_map (s : List (String × Daemon.Session)) (sid : Nat)
    (q : String × Daemon.Session) (hf : findSessionBySocket s sid = some q)
    (hnd : (s.map Prod.fst).Nodup) :
    (mapDelete s q.1).map (fun p => p.2.socketId) =
      eraseNat (s.map fun p => p.2.socketId) sid := by
  induction s with
  | nil => simp [findSessionBySocket] at hf
  | cons p rest ih =>
    have hnd1 : (p.1 :: rest.map Prod.fst).Nodup := by simpa using hnd
    have hndp : p.1 ∉ rest.map Prod.fst := (List.nodup_cons.mp hnd1).1
    have hndr : (rest.map Prod.fst).Nodup := (List.nodup_cons.mp hnd1).2
    by_cases hp : p.2.socketId = sid
    · simp only [findSessionBySocket, if_pos hp, Option.some.injEq] at hf
      subst hf
      simp [mapDelete, eraseNat, hp]
    · simp only [findSessionBySocket, if_neg hp] at hf
      have hqmem := findSessionBySocket_mem hf
      have hq1 : q.1 ∈ rest.map Prod.fst := List.mem_map_of_mem Prod.fst hqmem
      have hne : ¬ p.1 = q.1 := fun he => hndp (he ▸ hq1)
      simp only [mapDelete, if_neg hne, List.map_cons, eraseNat, if_neg hp]
      exact congrArg _ (ih hf hndr)

/-- `handleRequest` touches neither the session table nor the entropy
counter. -/
theorem handleRequest_preserve (st : DaemonState) (socketId : Nat) (msgId : String)
    (sid? : Option String) (act? : Option String) :
    (handleRequest st socketId msgId sid? act?).1.sessions = st.sessions ∧
    (handleRequest st socketId msgId sid? act?).1.rand = st.rand := by
  unfold handleRequest
  rcases sid? with _ | s
  · exact ⟨rfl, rfl⟩
  · rcases hms : mapGet st.sessions s with _ | sess
    · simp [hms]
    · rcases act? with _ | act
      · simp [hms]
      · by_cases hup : st.extensionUp <;> simp [hms, hup]

/-- `handlePing` only rewrites `lastActiveAt` fields: key and socket
projections and the entropy counter are unchanged. -/
theorem handlePing_preserve (st : DaemonState) (socketId : Nat) (msgId : String)
    (sid? : Option String) :
    (handlePing st socketId msgId sid?).1.sessions.map Prod.fst =
      st.sessions.map Prod.fst ∧
    (handlePing st socketId msgId sid?).1.sessions.map (fun q => q.2.socketId) =
      st.sessions.map (fun q => q.2.socketId) ∧
    (handlePing st socketId msgId sid?).1.rand = st.rand := by
  unfold handlePing
  rcases sid? with _ | s <;>
    simp [touchSession_map_fst, touchSession_map_socketId]

/-- `handleExtResponse` only deletes a pending entry and rewrites a
`lastActiveAt` field. -/
theorem handleExtResponse_preserve (st : DaemonState) (id : String)
    (pl : Option Daemon.Payload) :
    (handleExtResponse st id pl).1.sessions.map Prod.fst =
      st.sessions.map Prod.fst ∧
    (handleExtResponse st id pl).1.sessions.map (fun q => q.2.socketId) =
      st.sessions.map (fun q => q.2.socketId) ∧
    (handleExtResponse st id pl).1.rand = st.rand := by
  unfold handleExtResponse
  by_cases hid : id = ""
  · simp [hid]
  · rcases hmp : mapGet st.pending id with _ | p
    · simp [hid, hmp]
    · by_cases hps : (pl.map Payload.success).getD false <;>
        simp [hid, hmp, hps, touchSession_map_fst, touchSession_map_socketId]

theorem runD_cons_fst (st : DaemonState) (e : DEvent) (evs : List DEvent) :
    (runD st (e :: evs)).1 = (runD (stepD st e).1 evs).1 := rfl

/-- Carry the session-tracking invariant across a step that preserves
the key and socket projections and the entropy counter. -/
theorem live_inv_carry (evs : List DEvent) (st st' : DaemonState) (acc : List Nat)
    (hf : st'.sessions.map Prod.fst = st.sessions.map Prod.fst)
    (hs : st'.sessions.map (fun q => q.2.socketId) =
      st.sessions.map (fun q => q.2.socketId))
    (hr : st'.rand = st.rand)
    (ihev : ∀ (st0 : DaemonState) (acc0 : List Nat),
      st0.sessions.map (fun q => q.2.socketId) = acc0 →
      (∀ q ∈ st0.sessions, ∃ i, i < st0.rand ∧ q.1 = generateSessionId i) →
      (st0.sessions.map Prod.fst).Nodup →
      (∀ x ∈ acc0, x ∉ regSockets evs) →
      (regSockets evs).Nodup →
      (∀ e ∈ evs, isDisconnectEvent e = false) →
      (runD st0 evs).1.sessions.map (fun q => q.2.socketId) = liveRegistered acc0 evs)
    (hmap : st.sessions.map (fun q => q.2.socketId) = acc)
    (hfresh : ∀ q ∈ st.sessions, ∃ i, i < st.rand ∧ q.1 = generateSessionId i)
    (hkeys : (st.sessions.map Prod.fst).Nodup)
    (hacc : ∀ x ∈ acc, x ∉ regSockets evs)
    (hnd : (regSockets evs).Nodup)
    (hdisc : ∀ e ∈ evs, isDisconnectEvent e = false) :
    (runD st' evs).1.sessions.map (fun q => q.2.socketId) = liveRegistered acc evs := by
  apply ihev st' acc
  · rw [hs]; exact hmap
  · simp only [hr]
    exact keys_pred_of_map_fst_eq hf
      (P := fun k => ∃ i, i < st.rand ∧ k = generateSessionId i) hfresh
  · rw [hf]; exact hkeys
  · exact hacc
  · exact hnd
  · exact hdisc

/-- The socket projection of the session table tracks the
live-registered fold, for well-formed runs: each connection completes
REGISTER at most once and no explicit DISCONNECT occurs.  A REGISTER
refused at the session cap leaves both sides unchanged, so no bound on
the number of registrations is needed. -/
theorem sessions_track_live_registered :
    ∀ (evs : List DEvent) (st : DaemonState) (acc : List Nat),
      st.sessions.map (fun q => q.2.socketId) = acc →
      (∀ q ∈ st.sessions, ∃ i, i < st.rand ∧ q.1 = generateSessionId i) →
      (st.sessions.map Prod.fst).Nodup →
      (∀ x ∈ acc, x ∉ regSockets evs) →
      (regSockets evs).Nodup →
      (∀ e ∈ evs, isDisconnectEvent e = false) →
      (runD st evs).1.sessions.map (fun q => q.2.socketId) = liveRegistered acc evs := by
  intro evs
  induction evs with
  | nil =>
    intro st acc hmap _ _ _ _ _
    simpa [runD, liveRegistered] using hmap
  | cons e evs ih =>
    intro st acc hmap hfresh hkeys hacc hnd hdisc
    have hdisc' : ∀ e' ∈ evs, isDisconnectEvent e' = false :=
      fun e' he' => hdisc e' (List.mem_cons_of_mem e he')
    rw [runD_cons_fst]
    cases e with
    | clientMsg sid msg =>
      cases msg with
      | register mid =>
        have hregs : regSockets (DEvent.clientMsg sid (DMsg.register mid) :: evs) =
            sid :: regSockets evs := rfl
        rw [hregs] at hacc hnd
        have hsidreg : sid ∉ regSockets evs := (List.nodup_cons.mp hnd).1
        have hnd' : (regSockets evs).Nodup := (List.nodup_cons.mp hnd).2
        have hsidacc : sid ∉ acc :=
          fun hmem => (hacc sid hmem) (List.mem_cons_self sid (regSockets evs))
        have haccTail : ∀ x ∈ acc, x ∉ regSockets evs :=
          fun x hx hr => hacc x hx (List.mem_cons_of_mem sid hr)
        have hlenacc : st.sessions.length = acc.length := by
          rw [← hmap, List.length_map]
        by_cases hcap : st.sessions.length ≥ MAX_SESSIONS
        · -- At the cap the daemon answers REGISTER_ERROR: the session
          -- table is unchanged and the registration never completes.
          have hstep : (stepD st (DEvent.clientMsg sid (DMsg.register mid))).1 =
              st := by
            simp only [stepD, handleRegister, if_pos hcap]
          rw [hstep]
          have hacccap : acc.length ≥ MAX_SESSIONS := hlenacc ▸ hcap
          have hlive : liveRegistered acc
              (DEvent.clientMsg sid (DMsg.register mid) :: evs) =
              liveRegistered acc evs := by
            simp [liveRegistered, if_pos hacccap]
          rw [hlive]
          exact ih st acc hmap hfresh hkeys haccTail hnd' hdisc'
        · have hkeyfresh : mapGet st.sessions (generateSessionId st.rand) = none := by
            rw [mapGet_eq_none_iff]
            intro q hq he
            rcases hfresh q hq with ⟨i, hi, hqi⟩
            have h2 := generateSessionId_inj (hqi.symm.trans he)
            omega
          have happend := mapSet_of_get_none st.sessions (generateSessionId st.rand)
            ⟨generateSessionId st.rand, sid, st.clock, st.clock⟩ hkeyfresh
          have hstep : (stepD st (DEvent.clientMsg sid (DMsg.register mid))).1 =
              { st with
                sessions := st.sessions ++
                  [(generateSessionId st.rand,
                    ⟨generateSessionId st.rand, sid, st.clock, st.clock⟩)],
                rand := st.rand + 1 } := by
            simp only [stepD, handleRegister, if_neg hcap, happend]
          rw [hstep]
          have hacclt : ¬ acc.length ≥ MAX_SESSIONS := by omega
          have hlive : liveRegistered acc
              (DEvent.clientMsg sid (DMsg.register mid) :: evs) =
              liveRegistered (acc ++ [sid]) evs := by
            simp [liveRegistered, if_neg hacclt, hsidacc]
          rw [hlive]
          apply ih _ (acc ++ [sid])
          · simp [hmap]
          · intro q hq
            rcases List.mem_append.mp hq with hq1 | hq2
            · rcases hfresh q hq1 with ⟨i, hi, he⟩
              exact ⟨i, Nat.lt_succ_of_lt hi, he⟩
            · simp only [List.mem_singleton] at hq2
              exact ⟨st.rand, Nat.lt_succ_self st.rand, by rw [hq2]⟩
          · have hknotmem := key_not_mem_of_get_none hkeyfresh
            simpa using nodup_concat_of_not_mem hkeys hknotmem
          · intro x hx
            rcases List.mem_append.mp hx with hx1 | hx2
            · exact haccTail x hx1
            · simp only [List.mem_singleton] at hx2
              exact hx2 ▸ hsidreg
          · exact hnd'
          · exact hdisc'
      | request mid sid? act? =>
        have hpres := handleRequest_preserve st sid mid sid? act?
        have hsess : (stepD st (DEvent.clientMsg sid
            (DMsg.request mid sid? act?))).1.sessions = st.sessions := hpres.1
        have hrand : (stepD st (DEvent.clientMsg sid
            (DMsg.request mid sid? act?))).1.rand = st.rand := hpres.2
        exact live_inv_carry evs st _ acc (by rw [hsess]) (by rw [hsess]) hrand
          ih hmap hfresh hkeys hacc hnd hdisc'
      | ping mid sid? =>
        have hpres := handlePing_preserve st sid mid sid?
        exact live_inv_carry evs st _ acc hpres.1 hpres.2.1 hpres.2.2
          ih hmap hfresh hkeys hacc hnd hdisc'
      | status mid =>
        exact live_inv_carry evs st _ acc rfl rfl rfl
          ih hmap hfresh hkeys hacc hnd hdisc'
      | disconnect sid? =>
        have := hdisc (DEvent.clientMsg sid (DMsg.disconnect sid?))
          (List.mem_cons_self _ _)
        simp [isDisconnectEvent] at this
    | clientClose sid =>
      rcases hfind : findSessionBySocket st.sessions sid with _ | q
      · have hsid : sid ∉ acc := by
          rw [← hmap]
          exact (findSessionBySocket_none_iff st.sessions sid).mp hfind
        have hstep : (stepD st (DEvent.clientClose sid)).1 = st := by
          simp only [stepD, handleClientClose, hfind]
        rw [hstep]
        have hlive : liveRegistered acc (DEvent.clientClose sid :: evs) =
            liveRegistered acc evs := by
          simp [liveRegistered, eraseNat_of_not_mem hsid]
        rw [hlive]
        exact ih st acc hmap hfresh hkeys hacc hnd hdisc'
      · have hstep : (stepD st (DEvent.clientClose sid)).1.sessions =
            mapDelete st.sessions q.1 ∧
            (stepD st (DEvent.clientClose sid)).1.rand = st.rand := by
          simp [stepD, handleClientClose, hfind]
        have hmap' : (stepD st (DEvent.clientClose sid)).1.sessions.map
            (fun p => p.2.socketId) = eraseNat acc sid := by
          rw [hstep.1, removeFound_map st.sessions sid q hfind hkeys, hmap]
        have hlive : liveRegistered acc (DEvent.clientClose sid :: evs) =
            liveRegistered (eraseNat acc sid) evs := rfl
        rw [hlive]
        apply ih _ (eraseNat acc sid) hmap'
        · intro q' hq'
          rw [hstep.2]
          rw [hstep.1] at hq'
          exact hfresh q' (mem_mapDelete hq')
        · rw [hstep.1]
          exact List.Nodup.sublist ((mapDelete_sublist st.sessions q.1).map Prod.fst)
            hkeys
        · exact fun x hx => hacc x (mem_eraseNat hx)
        · exact hnd
        · exact hdisc'
    | extConnect =>
      have hsess : (stepD st DEvent.extConnect).1.sessions = st.sessions := by
        simp only [stepD]
        split <;> rfl
      have hrand : (stepD st DEvent.extConnect).1.rand = st.rand := by
        simp only [stepD]
        split <;> rfl
      exact live_inv_carry evs st _ acc (by rw [hsess]) (by rw [hsess]) hrand
        ih hmap hfresh hkeys hacc hnd hdisc'
    | extResponse id pl =>
      have hpres := handleExtResponse_preserve st id pl
      exact live_inv_carry evs st _ acc hpres.1 hpres.2.1 hpres.2.2
        ih hmap hfresh hkeys hacc hnd hdisc'
    | extClose =>
      exact live_inv_carry evs st _ acc rfl rfl rfl
        ih hmap hfresh hkeys hacc hnd hdisc'
    | timeoutFire rq =>
      have hsess : (stepD st (DEvent.timeoutFire rq)).1.sessions = st.sessions := by
        simp only [stepD, handleTimeout]
        rcases hmp : mapGet st.pending rq with _ | p <;> simp [hmp]
      have hrand : (stepD st (DEvent.timeoutFire rq)).1.rand = st.rand := by
        simp only [stepD, handleTimeout]
        rcases hmp : mapGet st.pending rq with _ | p <;> simp [hmp]
      exact live_inv_carry evs st _ acc (by rw [hsess]) (by rw [hsess]) hrand
        ih hmap hfresh hkeys hacc hnd hdisc'

/-- C5 counterexample: after a connection that completed REGISTER twice
closes, the daemon still holds one session (the close handler removes
only the first matching session and `break`s), while the number of live
helper connections that have completed REGISTER is zero. -/
theorem c5_counterexample_zombie_session :
    (runD initDaemon doubleRegisterTrace).1.sessions.length ≠
      (liveRegistered [] doubleRegisterTrace).length := by decide

/-- C5 (amended): in every run where each helper connection completes
REGISTER at most once and no explicit DISCONNECT is issued, the
daemon's session table tracks exactly the live helper connections that
have completed REGISTER — in particular the active-session count
equals their number.  A REGISTER refused at the session cap is answered
REGISTER_ERROR, never completes, and is counted on neither side. -/
theorem c5_sessions_equal_live_registered (evs : List DEvent)
    (h1 : (regSockets evs).Nodup)
    (h2 : ∀ e ∈ evs, isDisconnectEvent e = false) :
    (runD initDaemon evs).1.sessions.map (fun q => q.2.socketId) =
      liveRegistered [] evs ∧
    (runD initDaemon evs).1.sessions.length = (liveRegistered [] evs).length := by
  have h := sessions_track_live_registered evs initDaemon [] rfl
    (by intro q hq; simp [initDaemon] at hq)
    (by simp [initDaemon])
    (by intro x hx; simp at hx)
    h1 h2
  refine ⟨h, ?_⟩
  rw [← h]
  simp

/-- Witness: two helpers register and one closes; the session table
tracks the one surviving registered connection. -/
theorem c5_sessions_equal_live_registered_witness :
    (runD initDaemon twoHelperTrace).1.sessions.map (fun q => q.2.socketId) =
      liveRegistered [] twoHelperTrace ∧
    (runD initDaemon twoHelperTrace).1.sessions.length =
      (liveRegistered [] twoHelperTrace).length :=
  c5_sessions_equal_live_registered twoHelperTrace (by decide) (by decide)
